import Mathlib

/-!
Verification of the chat UI component in src/frontend/src/App.js
(repository chatbot-MDJ).

The component keeps four pieces of React state (App.js lines 5-15):
an in-memory message list, the textarea content, a loading flag for the
in-flight /chat request, and an OpenAI-status string.  The two async
operations, sendMessage (lines 45-91) and checkOpenAIStatus (lines
31-43), are embedded as pure state transformers parameterised by the
ambient values the browser supplies: the Date.now() reading, the
formatted timestamp string, and the outcome of the fetch call.
sendMessage is split at its await point into a synchronous start phase
(guard, append user entry, clear input, set loading) and a completion
phase (append reply or error entry, clear loading), so that the
in-flight state is a first-class value.
-/

namespace ChatbotMDJ

/-- A message object as built in App.js.  JavaScript objects may lack a
field: the error message literal at lines 82-86 has no isUser field, so
isUser is modelled as an Option, with none standing for an absent
(undefined) field. -/
structure ChatMessage where
  id : Nat
  text : String
  isUser : Option Bool
  timestamp : String
deriving Repr, DecidableEq

/-- The React state of the App component (App.js lines 5-15). -/
structure AppState where
  messages : List ChatMessage
  inputMessage : String
  isLoading : Bool
  openaiStatus : String
deriving Repr, DecidableEq

/-- JavaScript String.prototype.trim as invoked on the textarea content
(App.js lines 46, 164): strip leading and trailing whitespace.  Embedded
structurally on the character list so it computes by kernel reduction. -/
def trimString (s : String) : String :=
  String.mk (((s.data.dropWhile Char.isWhitespace).reverse.dropWhile
    Char.isWhitespace).reverse)

/-- The greeting placed in the initial messages state (App.js lines 5-12). -/
def greetingMessage (ts : String) : ChatMessage :=
  { id := 1
    text := "สวัสดีครับ! ยินดีต้อนรับสู่ AI Chatbot ของเรา 😊"
    isUser := some false
    timestamp := ts }

/-- The initial component state: the greeting list, empty input, not
loading, status checking (App.js lines 5-15).  ts is the
toLocaleTimeString value at mount. -/
def initialState (ts : String) : AppState :=
  { messages := [greetingMessage ts]
    inputMessage := ""
    isLoading := false
    openaiStatus := "checking" }

/-- Outcome of the await fetch in sendMessage: response.ok with a parsed
JSON body carrying the response string, a non-ok HTTP status, or a
thrown fetch/parse exception. -/
inductive FetchOutcome where
  | ok (responseText : String)
  | httpError
  | exn
deriving Repr, DecidableEq

/-- The user message object built at App.js lines 49-54: id Date.now(),
text the stored currentMessage, isUser true. -/
def userMessage (now : Nat) (currentMessage ts : String) : ChatMessage :=
  { id := now, text := currentMessage, isUser := some true, timestamp := ts }

/-- The bot message object built at App.js lines 71-76: id Date.now()+1,
text data.response, isUser false. -/
def botMessage (now : Nat) (responseText ts : String) : ChatMessage :=
  { id := now + 1, text := responseText, isUser := some false, timestamp := ts }

/-- The fixed apology text of the error message (App.js line 84). -/
def errorText : String :=
  "ขออภัยครับ เกิดข้อผิดพลาดในการเชื่อมต่อ กรุณาลองใหม่อีกครั้ง"

/-- The error message object built at App.js lines 82-86: id
Date.now()+1, the fixed apology text, and no isUser field at all. -/
def errorMessage (now : Nat) (ts : String) : ChatMessage :=
  { id := now + 1, text := errorText, isUser := none, timestamp := ts }

/-- Synchronous start phase of sendMessage (App.js lines 45-58): return
early if the trimmed input is empty, otherwise append the user message,
clear the input and set isLoading. -/
def sendMessageStart (s : AppState) (now : Nat) (ts : String) : AppState :=
  if trimString s.inputMessage = "" then s
  else
    { s with
      messages := s.messages ++ [userMessage now s.inputMessage ts]
      inputMessage := ""
      isLoading := true }

/-- Completion phase of sendMessage (App.js lines 60-90): on response.ok
append the bot message; a non-ok status throws (line 79) and the catch
block, like a fetch exception, appends the fixed error message (lines
81-87); the finally block clears isLoading in every case (lines 88-90). -/
def sendMessageComplete (s : AppState) (now : Nat) (ts : String)
    (out : FetchOutcome) : AppState :=
  match out with
  | FetchOutcome.ok responseText =>
      { s with
        messages := s.messages ++ [botMessage now responseText ts]
        isLoading := false }
  | FetchOutcome.httpError =>
      { s with
        messages := s.messages ++ [errorMessage now ts]
        isLoading := false }
  | FetchOutcome.exn =>
      { s with
        messages := s.messages ++ [errorMessage now ts]
        isLoading := false }

/-- A whole run of sendMessage, from invocation to settlement of the
request: nothing happens on blank input (line 46); otherwise the start
phase at clock now1 followed by the completion phase at clock now2. -/
def sendMessage (s : AppState) (now1 : Nat) (ts1 : String) (now2 : Nat)
    (ts2 : String) (out : FetchOutcome) : AppState :=
  if trimString s.inputMessage = "" then s
  else sendMessageComplete (sendMessageStart s now1 ts1) now2 ts2 out

/-- The POST /chat requests one invocation of sendMessage issues: none
when the guard at line 46 fires, otherwise the single fetch of line 61
with body message = currentMessage.  There is no loop or retry in the
source. -/
def chatRequests (s : AppState) : List String :=
  if trimString s.inputMessage = "" then [] else [s.inputMessage]

/-- Outcome of the fetch in checkOpenAIStatus: response.ok with the
parsed openai_available boolean, a non-ok status, or an exception. -/
inductive StatusFetchOutcome where
  | ok (openai_available : Bool)
  | httpError
  | exn
deriving Repr, DecidableEq

/-- checkOpenAIStatus (App.js lines 31-43): on an ok response the status
becomes connected or not_configured according to data.openai_available;
a non-ok status or a thrown exception both set error. -/
def checkOpenAIStatus (s : AppState) (out : StatusFetchOutcome) : AppState :=
  match out with
  | StatusFetchOutcome.ok avail =>
      { s with openaiStatus := if avail then "connected" else "not_configured" }
  | StatusFetchOutcome.httpError => { s with openaiStatus := "error" }
  | StatusFetchOutcome.exn => { s with openaiStatus := "error" }

/-- JavaScript truthiness of the possibly-absent isUser field, as used
by the renderer: undefined and false are falsy. -/
def isUserTruthy : Option Bool → Bool
  | some b => b
  | none => false

/-- The className of a rendered message (App.js line 124). -/
def messageClass (m : ChatMessage) : String :=
  if isUserTruthy m.isUser then "message user-message" else "message bot-message"

/-- The avatar of a rendered message (App.js lines 130-132). -/
def messageAvatar (m : ChatMessage) : String :=
  if isUserTruthy m.isUser then "👤" else "🤖"

/-- Whether the header renders the OpenAI indicator (App.js lines 111-113). -/
def showsOpenAIIndicator (status : String) : Bool :=
  status = "connected"

/-- Whether the header renders the Basic Mode indicator (App.js lines 114-116). -/
def showsBasicModeIndicator (status : String) : Bool :=
  status = "not_configured"

/-- Whether the textarea is rendered disabled (App.js line 160). -/
def textareaDisabled (s : AppState) : Bool :=
  s.isLoading

/-- Whether the send button is rendered disabled (App.js line 164):
blank trimmed input or a request in flight. -/
def sendButtonDisabled (s : AppState) : Bool :=
  trimString s.inputMessage = "" || s.isLoading

/-- Whether the three-dot typing indicator is rendered (App.js lines
136-147): exactly when isLoading holds. -/
def typingIndicatorShown (s : AppState) : Bool :=
  s.isLoading

/-- The events that can reach the component after mount.  setInput is
the textarea onChange handler (line 156); sendStart is an invocation of
sendMessage via the button or the Enter key; sendComplete is the
settlement of the in-flight /chat fetch; statusResolved is the
settlement of the mount-time checkOpenAIStatus fetch. -/
inductive Event where
  | setInput (v : String)
  | sendStart (now : Nat) (ts : String)
  | sendComplete (now : Nat) (ts : String) (out : FetchOutcome)
  | statusResolved (out : StatusFetchOutcome)
deriving Repr, DecidableEq

/-- One step of the component.  While isLoading holds the textarea and
button are disabled (lines 160, 164), so setInput and sendStart only
fire when not loading; a fetch settles only while its request is in
flight, and isLoading tracks the in-flight /chat request exactly, so
sendComplete only applies when isLoading holds. -/
def step (s : AppState) : Event → AppState
  | Event.setInput v => if s.isLoading then s else { s with inputMessage := v }
  | Event.sendStart now ts => if s.isLoading then s else sendMessageStart s now ts
  | Event.sendComplete now ts out =>
      if s.isLoading then sendMessageComplete s now ts out else s
  | Event.statusResolved out => checkOpenAIStatus s out

/-- Run a sequence of events from a state. -/
def run (s : AppState) : List Event → AppState
  | [] => s
  | e :: es => run (step s e) es

/-- A concrete state used to instantiate hypotheses: the greeting plus
the text hello typed into the textarea, no request in flight. -/
def wState : AppState :=
  { messages := [greetingMessage "t0"]
    inputMessage := "hello"
    isLoading := false
    openaiStatus := "checking" }

/-- C1: for a send whose text is non-empty after trimming, sendMessage
appends exactly one user entry and then exactly one further entry — the
bot reply on success, the fixed error entry on either kind of failure —
and nothing else. -/
theorem sendMessage_appends_user_then_reply (s : AppState) (now1 : Nat)
    (ts1 : String) (now2 : Nat) (ts2 : String) (out : FetchOutcome)
    (h : trimString s.inputMessage ≠ "") :
    (sendMessage s now1 ts1 now2 ts2 out).messages =
      s.messages ++ [userMessage now1 s.inputMessage ts1] ++
        [match out with
         | FetchOutcome.ok r => botMessage now2 r ts2
         | FetchOutcome.httpError => errorMessage now2 ts2
         | FetchOutcome.exn => errorMessage now2 ts2] := by
  unfold sendMessage sendMessageStart sendMessageComplete
  rw [if_neg h, if_neg h]
  cases out <;> simp

theorem sendMessage_appends_user_then_reply_witness :
    trimString wState.inputMessage ≠ "" ∧
    (sendMessage wState 5 "t1" 9 "t2" (FetchOutcome.ok "hi")).messages =
      wState.messages ++ [userMessage 5 "hello" "t1"] ++ [botMessage 9 "hi" "t2"] :=
  ⟨by decide,
   sendMessage_appends_user_then_reply wState 5 "t1" 9 "t2"
     (FetchOutcome.ok "hi") (by decide)⟩

/-- C2: on input that is empty after trimming, sendMessage issues no
/chat request and returns the state unchanged in every field, and the
send button is rendered disabled. -/
theorem blank_input_no_request_no_change (s : AppState) (now1 : Nat)
    (ts1 : String) (now2 : Nat) (ts2 : String) (out : FetchOutcome)
    (h : trimString s.inputMessage = "") :
    sendMessage s now1 ts1 now2 ts2 out = s ∧
    chatRequests s = [] ∧
    sendButtonDisabled s = true := by
  refine ⟨?_, ?_, ?_⟩
  · unfold sendMessage; rw [if_pos h]
  · unfold chatRequests; rw [if_pos h]
  · unfold sendButtonDisabled; simp [h]

theorem blank_input_no_request_no_change_witness :
    trimString "   " = "" ∧
    sendMessage { wState with inputMessage := "   " } 5 "t1" 9 "t2"
      FetchOutcome.exn = { wState with inputMessage := "   " } ∧
    chatRequests { wState with inputMessage := "   " } = [] ∧
    sendButtonDisabled { wState with inputMessage := "   " } = true :=
  ⟨by decide,
   blank_input_no_request_no_change { wState with inputMessage := "   " }
     5 "t1" 9 "t2" FetchOutcome.exn (by decide)⟩

/-- C3: an ok /openai-status response with openai_available false sets
the status to not_configured, which renders the Basic Mode indicator and
not the OpenAI indicator; and no status value renders both at once. -/
theorem status_false_basic_mode_only (s : AppState) :
    (checkOpenAIStatus s (StatusFetchOutcome.ok false)).openaiStatus =
      "not_configured" ∧
    showsBasicModeIndicator
      (checkOpenAIStatus s (StatusFetchOutcome.ok false)).openaiStatus = true ∧
    showsOpenAIIndicator
      (checkOpenAIStatus s (StatusFetchOutcome.ok false)).openaiStatus = false ∧
    ∀ st : String, (showsOpenAIIndicator st && showsBasicModeIndicator st) = false := by
  refine ⟨rfl, by simp [showsBasicModeIndicator, checkOpenAIStatus],
    by simp [showsOpenAIIndicator, checkOpenAIStatus], ?_⟩
  intro st
  unfold showsOpenAIIndicator showsBasicModeIndicator
  by_cases hc : st = "connected"
  · subst hc; decide
  · simp [hc]

/-- C4: every failure outcome — thrown fetch exception or non-ok HTTP
status — appends the same entry carrying the one fixed apology text and
clears isLoading; one invocation issues at most one /chat request, so
nothing is retried. -/
theorem failure_appends_fixed_apology (s : AppState) (now : Nat) (ts : String)
    (out : FetchOutcome)
    (h : out = FetchOutcome.httpError ∨ out = FetchOutcome.exn) :
    sendMessageComplete s now ts out =
      { s with messages := s.messages ++ [errorMessage now ts], isLoading := false } ∧
    (errorMessage now ts).text = errorText ∧
    sendMessageComplete s now ts FetchOutcome.httpError =
      sendMessageComplete s now ts FetchOutcome.exn ∧
    (chatRequests s).length ≤ 1 := by
  have hlen : (chatRequests s).length ≤ 1 := by
    unfold chatRequests; split <;> simp
  obtain rfl | rfl := h <;> exact ⟨rfl, rfl, rfl, hlen⟩

theorem failure_appends_fixed_apology_witness :
    sendMessageComplete wState 9 "t2" FetchOutcome.exn =
      { wState with
        messages := wState.messages ++ [errorMessage 9 "t2"]
        isLoading := false } ∧
    (errorMessage 9 "t2").text = errorText ∧
    sendMessageComplete wState 9 "t2" FetchOutcome.httpError =
      sendMessageComplete wState 9 "t2" FetchOutcome.exn ∧
    (chatRequests wState).length ≤ 1 :=
  failure_appends_fixed_apology wState 9 "t2" FetchOutcome.exn (Or.inr rfl)

/-- C5: after a non-blank send starts, isLoading holds, the textarea and
the send button are rendered disabled and the typing indicator is
rendered; completing the request with any outcome resets isLoading, so
the textarea is enabled and the indicator is gone. -/
theorem loading_disables_input_until_complete (s : AppState) (now1 : Nat)
    (ts1 : String) (h : trimString s.inputMessage ≠ "") :
    (sendMessageStart s now1 ts1).isLoading = true ∧
    textareaDisabled (sendMessageStart s now1 ts1) = true ∧
    sendButtonDisabled (sendMessageStart s now1 ts1) = true ∧
    typingIndicatorShown (sendMessageStart s now1 ts1) = true ∧
    ∀ (now2 : Nat) (ts2 : String) (out : FetchOutcome),
      (sendMessageComplete (sendMessageStart s now1 ts1) now2 ts2 out).isLoading
          = false ∧
      textareaDisabled
          (sendMessageComplete (sendMessageStart s now1 ts1) now2 ts2 out)
          = false ∧
      typingIndicatorShown
          (sendMessageComplete (sendMessageStart s now1 ts1) now2 ts2 out)
          = false := by
  unfold sendMessageStart textareaDisabled sendButtonDisabled typingIndicatorShown
  rw [if_neg h]
  refine ⟨rfl, rfl, by simp [trimString], rfl, ?_⟩
  intro now2 ts2 out
  cases out <;> exact ⟨rfl, rfl, rfl⟩

theorem loading_disables_input_until_complete_witness :
    (sendMessageStart wState 5 "t1").isLoading = true ∧
    typingIndicatorShown (sendMessageStart wState 5 "t1") = true ∧
    (sendMessageComplete (sendMessageStart wState 5 "t1") 9 "t2"
        FetchOutcome.httpError).isLoading = false ∧
    typingIndicatorShown
      (sendMessageComplete (sendMessageStart wState 5 "t1") 9 "t2"
        FetchOutcome.httpError) = false := by
  have h := loading_disables_input_until_complete wState 5 "t1" (by decide)
  exact ⟨h.1, h.2.2.2.1,
    (h.2.2.2.2 9 "t2" FetchOutcome.httpError).1,
    (h.2.2.2.2 9 "t2" FetchOutcome.httpError).2.2⟩

/-- A run in which the clock advances by only one millisecond between
the settlement of a reply (id Date.now()+1) and the next send (id
Date.now()): reply id 6 at clock 5, next user entry id 6 at clock 6. -/
def cexTrace : List Event :=
  [Event.setInput "hi",
   Event.sendStart 5 "t",
   Event.sendComplete 5 "t" (FetchOutcome.ok "a"),
   Event.setInput "bb",
   Event.sendStart 6 "t"]

/-- C6 as stated is false: in the run cexTrace the entry appended by the
final send has id 6, not strictly greater than the id 6 already in the
list, so the ids are not pairwise strictly increasing. -/
theorem ids_monotone_counterexample :
    (run (initialState "t0") cexTrace).messages.map ChatMessage.id
        = [1, 5, 6, 6] ∧
    ¬ List.Pairwise (fun a b => a < b)
        ((run (initialState "t0") cexTrace).messages.map ChatMessage.id) := by
  decide

/-- Appending one id larger than everything in a strictly increasing
list keeps it strictly increasing. -/
theorem pairwise_lt_append_one {l : List Nat} {n : Nat}
    (hl : List.Pairwise (fun a b => a < b) l) (hn : ∀ a ∈ l, a < n) :
    List.Pairwise (fun a b => a < b) (l ++ [n]) := by
  rw [List.pairwise_append]
  refine ⟨hl, List.pairwise_singleton _ _, ?_⟩
  intro a ha b hb
  rw [List.mem_singleton] at hb
  subst hb
  exact hn a ha

/-- C6 amended: an appended entry's id strictly exceeds every id already
in the list provided the Date.now() reading of the operation strictly
exceeds every id already in the list; under that clock assumption both
phases preserve strict monotonicity of the id sequence.  (Unconditional
monotonicity fails: see the counterexample run.) -/
theorem ids_monotone_of_clock_ahead (s : AppState) (now : Nat) (ts : String)
    (out : FetchOutcome)
    (hmono : List.Pairwise (fun a b => a < b) (s.messages.map ChatMessage.id))
    (hnow : ∀ m ∈ s.messages, m.id < now) :
    List.Pairwise (fun a b => a < b)
        ((sendMessageStart s now ts).messages.map ChatMessage.id) ∧
    List.Pairwise (fun a b => a < b)
        ((sendMessageComplete s now ts out).messages.map ChatMessage.id) := by
  have hid : ∀ a ∈ s.messages.map ChatMessage.id, a < now := by
    intro a ha
    obtain ⟨m, hm, rfl⟩ := List.mem_map.mp ha
    exact hnow m hm
  constructor
  · unfold sendMessageStart
    split
    · exact hmono
    · rw [List.map_append]
      exact pairwise_lt_append_one hmono hid
  · have hid1 : ∀ a ∈ s.messages.map ChatMessage.id, a < now + 1 :=
      fun a ha => Nat.lt_succ_of_lt (hid a ha)
    cases out <;>
      (unfold sendMessageComplete
       rw [List.map_append]
       exact pairwise_lt_append_one hmono hid1)

theorem ids_monotone_of_clock_ahead_witness :
    List.Pairwise (fun a b => a < b)
        ((sendMessageStart wState 5 "t1").messages.map ChatMessage.id) ∧
    List.Pairwise (fun a b => a < b)
        ((sendMessageComplete wState 5 "t1" FetchOutcome.exn).messages.map
          ChatMessage.id) :=
  ids_monotone_of_clock_ahead wState 5 "t1" FetchOutcome.exn
    (by decide) (by decide)

/-- The status string checkOpenAIStatus derives from a settled
/openai-status fetch (App.js lines 34-42). -/
def derivedStatus : StatusFetchOutcome → String
  | StatusFetchOutcome.ok avail => if avail then "connected" else "not_configured"
  | StatusFetchOutcome.httpError => "error"
  | StatusFetchOutcome.exn => "error"

/-- Specification observer for the status flag over a run: the value
derived from the last settled status fetch, or the current value when no
status fetch settles. -/
def lastStatus (cur : String) : List Event → String
  | [] => cur
  | Event.statusResolved out :: es => lastStatus (derivedStatus out) es
  | Event.setInput _ :: es => lastStatus cur es
  | Event.sendStart _ _ :: es => lastStatus cur es
  | Event.sendComplete _ _ _ :: es => lastStatus cur es

theorem step_openaiStatus (s : AppState) (e : Event) :
    (step s e).openaiStatus =
      match e with
      | Event.statusResolved out => derivedStatus out
      | _ => s.openaiStatus := by
  cases e with
  | setInput v =>
      simp only [step]; split <;> rfl
  | sendStart now ts =>
      simp only [step, sendMessageStart]
      split
      · rfl
      · split <;> rfl
  | sendComplete now ts out =>
      simp only [step]
      split
      · cases out <;> rfl
      · rfl
  | statusResolved out =>
      simp only [step]
      cases out <;> rfl

theorem run_openaiStatus (trace : List Event) :
    ∀ s : AppState, (run s trace).openaiStatus = lastStatus s.openaiStatus trace := by
  induction trace with
  | nil => intro s; rfl
  | cons e es ih =>
      intro s
      simp only [run]
      rw [ih, step_openaiStatus]
      cases e <;> rfl

theorem lastStatus_mem (trace : List Event) :
    ∀ cur : String,
      lastStatus cur trace = cur ∨
      ∃ out, lastStatus cur trace = derivedStatus out := by
  induction trace with
  | nil => intro cur; exact Or.inl rfl
  | cons e es ih =>
      intro cur
      cases e with
      | setInput v => exact ih cur
      | sendStart now ts => exact ih cur
      | sendComplete now ts out => exact ih cur
      | statusResolved out =>
          rcases ih (derivedStatus out) with h | h
          · exact Or.inr ⟨out, h⟩
          · exact Or.inr h

/-- C7: the status flag starts as checking, over any run it equals the
value derived from the last settled status fetch (so only the status
fetch ever changes it, and once it settles the flag is exactly its
derived value), and in every reachable state it is one of checking,
connected, not_configured, error. -/
theorem status_flag_invariant (ts : String) (trace : List Event) :
    (initialState ts).openaiStatus = "checking" ∧
    (run (initialState ts) trace).openaiStatus = lastStatus "checking" trace ∧
    ((run (initialState ts) trace).openaiStatus = "checking" ∨
     (run (initialState ts) trace).openaiStatus = "connected" ∨
     (run (initialState ts) trace).openaiStatus = "not_configured" ∨
     (run (initialState ts) trace).openaiStatus = "error") := by
  have hrun : (run (initialState ts) trace).openaiStatus =
      lastStatus "checking" trace :=
    run_openaiStatus trace (initialState ts)
  refine ⟨rfl, hrun, ?_⟩
  rw [hrun]
  rcases lastStatus_mem trace "checking" with h | ⟨out, h⟩
  · exact Or.inl h
  · rw [h]
    cases out with
    | ok avail => cases avail
                  · exact Or.inr (Or.inr (Or.inl rfl))
                  · exact Or.inr (Or.inl rfl)
    | httpError => exact Or.inr (Or.inr (Or.inr rfl))
    | exn => exact Or.inr (Or.inr (Or.inr rfl))

/-- C8: the error entry carries no isUser field (modelled as none), so
the renderer's truthiness test sends it down the bot branch: it gets the
bot-message class and the bot avatar, exactly as a genuine reply does. -/
theorem error_entry_rendered_as_bot (now1 now2 : Nat) (ts1 ts2 r : String) :
    (errorMessage now1 ts1).isUser = none ∧
    messageClass (errorMessage now1 ts1) = "message bot-message" ∧
    messageAvatar (errorMessage now1 ts1) = "🤖" ∧
    messageClass (errorMessage now1 ts1) = messageClass (botMessage now2 r ts2) ∧
    messageAvatar (errorMessage now1 ts1) = messageAvatar (botMessage now2 r ts2) :=
  ⟨rfl, rfl, rfl, rfl, rfl⟩

/-- C9: a non-blank send clears the input field in its synchronous start
phase, before the response arrives; the completion phase never writes
the input field, so the typed text stays cleared on success and on
failure alike. -/
theorem input_cleared_on_send_never_restored (s : AppState) (now1 : Nat)
    (ts1 : String) (h : trimString s.inputMessage ≠ "") :
    (sendMessageStart s now1 ts1).inputMessage = "" ∧
    (∀ (now2 : Nat) (ts2 : String) (out : FetchOutcome),
      (sendMessageComplete (sendMessageStart s now1 ts1) now2 ts2
        out).inputMessage = "") ∧
    ∀ (s2 : AppState) (now2 : Nat) (ts2 : String) (out : FetchOutcome),
      (sendMessageComplete s2 now2 ts2 out).inputMessage = s2.inputMessage := by
  have hcomp : ∀ (s2 : AppState) (now2 : Nat) (ts2 : String) (out : FetchOutcome),
      (sendMessageComplete s2 now2 ts2 out).inputMessage = s2.inputMessage := by
    intro s2 now2 ts2 out
    cases out <;> rfl
  have hstart : (sendMessageStart s now1 ts1).inputMessage = "" := by
    unfold sendMessageStart
    rw [if_neg h]
  exact ⟨hstart, fun now2 ts2 out => by rw [hcomp, hstart], hcomp⟩

theorem input_cleared_on_send_never_restored_witness :
    (sendMessageStart wState 5 "t1").inputMessage = "" ∧
    (sendMessageComplete (sendMessageStart wState 5 "t1") 9 "t2"
      FetchOutcome.exn).inputMessage = "" := by
  have h := input_cleared_on_send_never_restored wState 5 "t1" (by decide)
  exact ⟨h.1, h.2.1 9 "t2" FetchOutcome.exn⟩

theorem step_messages_extends (s : AppState) (e : Event) :
    ∃ t, (step s e).messages = s.messages ++ t := by
  cases e with
  | setInput v =>
      refine ⟨[], ?_⟩
      rw [List.append_nil]
      simp only [step]; split <;> rfl
  | sendStart now ts =>
      simp only [step]
      by_cases hl : s.isLoading
      · exact ⟨[], by rw [if_pos hl, List.append_nil]⟩
      · rw [if_neg hl]
        unfold sendMessageStart
        by_cases ht : trimString s.inputMessage = ""
        · exact ⟨[], by rw [if_pos ht, List.append_nil]⟩
        · exact ⟨[userMessage now s.inputMessage ts], by rw [if_neg ht]⟩
  | sendComplete now ts out =>
      simp only [step]
      by_cases hl : s.isLoading
      · rw [if_pos hl]
        cases out with
        | ok r => exact ⟨[botMessage now r ts], rfl⟩
        | httpError => exact ⟨[errorMessage now ts], rfl⟩
        | exn => exact ⟨[errorMessage now ts], rfl⟩
      · exact ⟨[], by rw [if_neg hl, List.append_nil]⟩
  | statusResolved out =>
      refine ⟨[], ?_⟩
      rw [List.append_nil]
      simp only [step]
      cases out <;> rfl

theorem run_messages_extends (trace : List Event) :
    ∀ s : AppState, ∃ t, (run s trace).messages = s.messages ++ t := by
  induction trace with
  | nil => intro s; exact ⟨[], (List.append_nil _).symm⟩
  | cons e es ih =>
      intro s
      obtain ⟨t1, h1⟩ := step_messages_extends s e
      obtain ⟨t2, h2⟩ := ih (step s e)
      exact ⟨t1 ++ t2, by rw [run, h2, h1, List.append_assoc]⟩

/-- C10: in every reachable state the message list is non-empty with the
fixed greeting (id 1) first, and every event only ever appends to it:
the state after one more step extends the current list on the right. -/
theorem messages_append_only_with_greeting (ts : String) (trace : List Event) :
    (run (initialState ts) trace).messages.isEmpty = false ∧
    (run (initialState ts) trace).messages.head? = some (greetingMessage ts) ∧
    ∀ e : Event, ∃ t, (step (run (initialState ts) trace) e).messages =
      (run (initialState ts) trace).messages ++ t := by
  obtain ⟨t, ht⟩ := run_messages_extends trace (initialState ts)
  have hcons : (run (initialState ts) trace).messages = greetingMessage ts :: t := by
    rw [ht]; rfl
  refine ⟨?_, ?_, fun e => step_messages_extends _ e⟩
  · rw [hcons]; rfl
  · rw [hcons]; rfl

end ChatbotMDJ
